import Mathlib

/-!
Shallow embedding of `keyboard-visualizer/start-server.py`: a small HTTP
server exposing a JSON persistence API over two files (a key-color mapping
and a keymap text blob), plus a static-file fallback and a port probe.

Modelling conventions:
  * JSON values are the inductive `Json`; numbers are modelled as integers
    (the repository never exchanges fractional numbers, and floating point
    is out of scope for the embedding).
  * `dumps` mirrors CPython `json.dumps` with its default separators and
    `ensure_ascii=True`; `dumpsIndent2` mirrors `json.dumps(-, indent=2)`,
    which is what the server writes to the color file.
  * `loads` mirrors CPython `json.loads` (strict mode): whitespace
    skipping, string escapes, the no-leading-zero integer grammar, and
    dict semantics for repeated keys (the last occurrence wins, the first
    occurrence keeps its position). Fractional and exponent number forms
    and surrogate-pair recombination are outside the model.
  * The filesystem is the record `FS`; the stdlib pieces the handler uses
    (static file serving, the HTML error page of `send_error`) are
    modelled at the granularity the handler observes.
-/

/-- Type of JSON values, as produced by the Python `json` module: objects
keep their fields as an association list in insertion order. -/
inductive Json where
  | null : Json
  | bool (b : Bool) : Json
  | num (n : Int) : Json
  | str (s : String) : Json
  | arr (elems : List Json) : Json
  | obj (fields : List (String × Json)) : Json
deriving Repr

mutual

/-- Structural equality test on JSON values (no deriving handler exists for
the nested occurrences of `List`). -/
def jsonBeq : Json → Json → Bool
  | Json.null, Json.null => true
  | Json.bool a, Json.bool b => a == b
  | Json.num a, Json.num b => a == b
  | Json.str a, Json.str b => a == b
  | Json.arr a, Json.arr b => jsonBeqList a b
  | Json.obj a, Json.obj b => jsonBeqFields a b
  | _, _ => false

/-- Structural equality test on lists of JSON values. -/
def jsonBeqList : List Json → List Json → Bool
  | [], [] => true
  | x :: xs, y :: ys => jsonBeq x y && jsonBeqList xs ys
  | _, _ => false

/-- Structural equality test on field lists. -/
def jsonBeqFields : List (String × Json) → List (String × Json) → Bool
  | [], [] => true
  | (k, v) :: xs, (l, w) :: ys => k == l && jsonBeq v w && jsonBeqFields xs ys
  | _, _ => false

end

mutual

theorem jsonBeq_iff : ∀ a b : Json, jsonBeq a b = true ↔ a = b
  | Json.null, Json.null => by simp [jsonBeq]
  | Json.bool _, Json.bool _ => by simp [jsonBeq]
  | Json.num _, Json.num _ => by simp [jsonBeq]
  | Json.str _, Json.str _ => by simp [jsonBeq]
  | Json.arr x, Json.arr y => by simp [jsonBeq, jsonBeqList_iff x y]
  | Json.obj x, Json.obj y => by simp [jsonBeq, jsonBeqFields_iff x y]
  | Json.null, Json.bool _ | Json.null, Json.num _ | Json.null, Json.str _
  | Json.null, Json.arr _ | Json.null, Json.obj _
  | Json.bool _, Json.null | Json.bool _, Json.num _ | Json.bool _, Json.str _
  | Json.bool _, Json.arr _ | Json.bool _, Json.obj _
  | Json.num _, Json.null | Json.num _, Json.bool _ | Json.num _, Json.str _
  | Json.num _, Json.arr _ | Json.num _, Json.obj _
  | Json.str _, Json.null | Json.str _, Json.bool _ | Json.str _, Json.num _
  | Json.str _, Json.arr _ | Json.str _, Json.obj _
  | Json.arr _, Json.null | Json.arr _, Json.bool _ | Json.arr _, Json.num _
  | Json.arr _, Json.str _ | Json.arr _, Json.obj _
  | Json.obj _, Json.null | Json.obj _, Json.bool _ | Json.obj _, Json.num _
  | Json.obj _, Json.str _ | Json.obj _, Json.arr _ => by simp [jsonBeq]

theorem jsonBeqList_iff : ∀ xs ys : List Json, jsonBeqList xs ys = true ↔ xs = ys
  | [], [] => by simp [jsonBeqList]
  | x :: xs, y :: ys => by simp [jsonBeqList, jsonBeq_iff x y, jsonBeqList_iff xs ys]
  | [], _ :: _ => by simp [jsonBeqList]
  | _ :: _, [] => by simp [jsonBeqList]

theorem jsonBeqFields_iff : ∀ xs ys : List (String × Json), jsonBeqFields xs ys = true ↔ xs = ys
  | [], [] => by simp [jsonBeqFields]
  | (k, v) :: xs, (l, w) :: ys => by
    simp [jsonBeqFields, jsonBeq_iff v w, jsonBeqFields_iff xs ys, Prod.ext_iff, and_assoc]
  | [], _ :: _ => by simp [jsonBeqFields]
  | _ :: _, [] => by simp [jsonBeqFields]

end

instance : DecidableEq Json := fun a b =>
  decidable_of_iff (jsonBeq a b = true) (jsonBeq_iff a b)

/-- Hexadecimal digit character, lowercase, as CPython prints in escapes. -/
def hexDigitChar (n : Nat) : Char :=
  if n < 10 then Char.ofNat (48 + n) else Char.ofNat (87 + n)

/-- Four-digit lowercase hexadecimal rendering of a code unit. -/
def hex4 (n : Nat) : String :=
  String.mk [hexDigitChar (n / 4096 % 16), hexDigitChar (n / 256 % 16),
             hexDigitChar (n / 16 % 16), hexDigitChar (n % 16)]

/-- Unicode escape of a code point, using a surrogate pair beyond the BMP,
exactly as `json.dumps` with `ensure_ascii=True` does. -/
def escapeUnicode (n : Nat) : String :=
  if n ≤ 65535 then "\\u" ++ hex4 n
  else
    "\\u" ++ hex4 (55296 + (n - 65536) / 1024) ++ "\\u" ++ hex4 (56320 + (n - 65536) % 1024)

/-- Escape of one character inside a JSON string literal (CPython
`ESCAPE_ASCII` table: quote, backslash, the short escapes, and a unicode
escape for anything outside the printable ASCII range). -/
def escapeChar (c : Char) : String :=
  if c = '"' then "\\\""
  else if c = '\\' then "\\\\"
  else if c = '\n' then "\\n"
  else if c = '\t' then "\\t"
  else if c = '\r' then "\\r"
  else if c.toNat = 8 then "\\b"
  else if c.toNat = 12 then "\\f"
  else if c.toNat < 32 || 126 < c.toNat then escapeUnicode c.toNat
  else String.singleton c

/-- JSON string literal for `s`, quotes included. -/
def escapeString (s : String) : String :=
  "\"" ++ String.join (s.data.map escapeChar) ++ "\""

mutual

/-- Compact serialization: `json.dumps(v)` with the default separators
`", "` between items and `": "` after keys. -/
def dumps : Json → String
  | Json.null => "null"
  | Json.bool true => "true"
  | Json.bool false => "false"
  | Json.num n => toString n
  | Json.str s => escapeString s
  | Json.arr xs => "[" ++ dumpsElems xs ++ "]"
  | Json.obj kvs => "\x7b" ++ dumpsFields kvs ++ "\x7d"

/-- Array items of the compact serialization, joined by `", "`. -/
def dumpsElems : List Json → String
  | [] => ""
  | [x] => dumps x
  | x :: y :: rest => dumps x ++ ", " ++ dumpsElems (y :: rest)

/-- Object fields of the compact serialization, joined by `", "`. -/
def dumpsFields : List (String × Json) → String
  | [] => ""
  | [(k, v)] => escapeString k ++ ": " ++ dumps v
  | (k, v) :: kv :: rest => escapeString k ++ ": " ++ dumps v ++ ", " ++ dumpsFields (kv :: rest)

end

/-- Run of `n` spaces. -/
def indentSpaces (n : Nat) : String := String.mk (List.replicate n ' ')

mutual

/-- Pretty serialization at nesting depth `level`: `json.dumps(v, indent=2)`,
whose separators default to `","` and `": "`. Empty containers stay on one
line; a non-empty container opens a line per item, each indented two spaces
beyond the closing bracket. -/
def dumpsIndent : Json → Nat → String
  | Json.arr [], _ => "[]"
  | Json.arr (x :: xs), level =>
      "[\n" ++ indentElems (x :: xs) (level + 1) ++ "\n" ++ indentSpaces (2 * level) ++ "]"
  | Json.obj [], _ => "\x7b\x7d"
  | Json.obj (kv :: kvs), level =>
      "\x7b\n" ++ indentFields (kv :: kvs) (level + 1) ++ "\n" ++ indentSpaces (2 * level) ++ "\x7d"
  | v, _ => dumps v

/-- Array items of the pretty serialization, one per line. -/
def indentElems : List Json → Nat → String
  | [], _ => ""
  | [x], level => indentSpaces (2 * level) ++ dumpsIndent x level
  | x :: y :: rest, level =>
      indentSpaces (2 * level) ++ dumpsIndent x level ++ ",\n" ++ indentElems (y :: rest) level

/-- Object fields of the pretty serialization, one per line. -/
def indentFields : List (String × Json) → Nat → String
  | [], _ => ""
  | [(k, v)], level => indentSpaces (2 * level) ++ escapeString k ++ ": " ++ dumpsIndent v level
  | (k, v) :: kv :: rest, level =>
      indentSpaces (2 * level) ++ escapeString k ++ ": " ++ dumpsIndent v level ++ ",\n"
        ++ indentFields (kv :: rest) level

end

/-- Top-level pretty serialization, `json.dump(v, f, indent=2)`: what the
server writes into the color-mapping file. -/
def dumpsIndent2 (v : Json) : String := dumpsIndent v 0

/-- Whitespace characters the JSON grammar skips. -/
def isJsonWs (c : Char) : Bool := c = ' ' || c = '\t' || c = '\n' || c = '\r'

/-- Drop leading JSON whitespace. -/
def skipWs : List Char → List Char
  | [] => []
  | c :: cs => if isJsonWs c then skipWs cs else c :: cs

/-- Decimal digit test. -/
def isDigitChar (c : Char) : Bool := 48 ≤ c.toNat && c.toNat ≤ 57

/-- Value of a decimal digit character. -/
def digitVal (c : Char) : Nat := c.toNat - 48

/-- Value of a hexadecimal digit character, either case. -/
def hexVal (c : Char) : Option Nat :=
  if 48 ≤ c.toNat && c.toNat ≤ 57 then some (c.toNat - 48)
  else if 97 ≤ c.toNat && c.toNat ≤ 102 then some (c.toNat - 87)
  else if 65 ≤ c.toNat && c.toNat ≤ 70 then some (c.toNat - 55)
  else none

/-- Decoding of a single backslash escape other than `\u`. -/
def escDecode (e : Char) : Option Char :=
  if e = '"' then some '"'
  else if e = '\\' then some '\\'
  else if e = '/' then some '/'
  else if e = 'n' then some '\n'
  else if e = 't' then some '\t'
  else if e = 'r' then some '\r'
  else if e = 'b' then some (Char.ofNat 8)
  else if e = 'f' then some (Char.ofNat 12)
  else none

/-- Body of a JSON string literal, the opening quote already consumed:
returns the decoded characters and the input after the closing quote.
Raw control characters are rejected, as `json.loads` does in strict mode. -/
def parseStringChars : List Char → Option (List Char × List Char)
  | [] => none
  | c :: cs =>
    if c = '"' then some ([], cs)
    else if c = '\\' then
      match cs with
      | [] => none
      | e :: cs2 =>
        if e = 'u' then
          match cs2 with
          | h1 :: h2 :: h3 :: h4 :: cs3 =>
            match hexVal h1, hexVal h2, hexVal h3, hexVal h4 with
            | some a, some b, some c3, some d =>
              match parseStringChars cs3 with
              | some (out, rest) =>
                  some (Char.ofNat (4096 * a + 256 * b + 16 * c3 + d) :: out, rest)
              | none => none
            | _, _, _, _ => none
          | _ => none
        else
          match escDecode e with
          | some d =>
            match parseStringChars cs2 with
            | some (out, rest) => some (d :: out, rest)
            | none => none
          | none => none
    else if c.toNat < 32 then none
    else
      match parseStringChars cs with
      | some (out, rest) => some (c :: out, rest)
      | none => none

/-- Run of decimal digits folded onto an accumulator. -/
def parseDigits : List Char → Nat → Nat × List Char
  | [], acc => (acc, [])
  | c :: cs, acc => if isDigitChar c then parseDigits cs (10 * acc + digitVal c) else (acc, c :: cs)

/-- Unsigned integer literal of the JSON grammar: `0` or a nonzero digit
followed by more digits (a leading zero stands alone). -/
def parseNat : List Char → Option (Nat × List Char)
  | [] => none
  | c :: cs =>
    if c.toNat = 48 then some (0, cs)
    else if isDigitChar c then some (parseDigits cs (digitVal c))
    else none

/-- Signed integer literal. The fractional and exponent parts of the JSON
number grammar are outside the model. -/
def parseIntLit (cs : List Char) : Option (Int × List Char) :=
  match cs with
  | [] => none
  | c :: cs1 =>
    if c = '-' then
      match parseNat cs1 with
      | some (n, rest) => some (-(n : Int), rest)
      | none => none
    else
      match parseNat (c :: cs1) with
      | some (n, rest) => some ((n : Int), rest)
      | none => none

/-- Opening brace character. -/
def lbraceChar : Char := Char.ofNat 123

/-- Closing brace character. -/
def rbraceChar : Char := Char.ofNat 125

/-- Replacement of the value stored under `k`, keeping the position of the
first occurrence, or an append when `k` is new: one step of Python dict
construction. -/
def dictInsert : List (String × Json) → String → Json → List (String × Json)
  | [], k, v => [(k, v)]
  | (k1, v1) :: rest, k, v =>
    if k1 = k then (k1, v) :: rest else (k1, v1) :: dictInsert rest k v

/-- Left fold of `dictInsert` over raw key-value pairs. -/
def dictOfPairsAux (acc : List (String × Json)) : List (String × Json) → List (String × Json)
  | [] => acc
  | (k, v) :: rest => dictOfPairsAux (dictInsert acc k v) rest

/-- Dict built from the pairs of an object literal in order, as Python
does: a repeated key keeps its first position and takes its last value. -/
def dictOfPairs (pairs : List (String × Json)) : List (String × Json) :=
  dictOfPairsAux [] pairs

mutual

/-- One JSON value and the remaining input, fuel-indexed to bound the
nesting; `loads` supplies ample fuel. -/
def parseValue : Nat → List Char → Option (Json × List Char)
  | 0, _ => none
  | fuel + 1, cs0 =>
    match skipWs cs0 with
    | [] => none
    | c :: cs =>
      if c = '"' then
        match parseStringChars cs with
        | some (out, rest) => some (Json.str (String.mk out), rest)
        | none => none
      else if c = 'n' then
        match cs with
        | 'u' :: 'l' :: 'l' :: rest => some (Json.null, rest)
        | _ => none
      else if c = 't' then
        match cs with
        | 'r' :: 'u' :: 'e' :: rest => some (Json.bool true, rest)
        | _ => none
      else if c = 'f' then
        match cs with
        | 'a' :: 'l' :: 's' :: 'e' :: rest => some (Json.bool false, rest)
        | _ => none
      else if c = '[' then
        match skipWs cs with
        | [] => none
        | c2 :: rest2 =>
          if c2 = ']' then some (Json.arr [], rest2)
          else
            match parseElems fuel (c2 :: rest2) with
            | some (vs, rest3) => some (Json.arr vs, rest3)
            | none => none
      else if c = lbraceChar then
        match skipWs cs with
        | [] => none
        | c2 :: rest2 =>
          if c2 = rbraceChar then some (Json.obj [], rest2)
          else
            match parseFields fuel (c2 :: rest2) with
            | some (pairs, rest3) => some (Json.obj (dictOfPairs pairs), rest3)
            | none => none
      else if c = '-' || isDigitChar c then
        match parseIntLit (c :: cs) with
        | some (n, rest) => some (Json.num n, rest)
        | none => none
      else none

/-- Comma-separated array items up to the closing bracket. -/
def parseElems : Nat → List Char → Option (List Json × List Char)
  | 0, _ => none
  | fuel + 1, cs =>
    match parseValue fuel cs with
    | none => none
    | some (v, rest) =>
      match skipWs rest with
      | [] => none
      | c :: rest2 =>
        if c = ',' then
          match parseElems fuel rest2 with
          | some (vs, rest3) => some (v :: vs, rest3)
          | none => none
        else if c = ']' then some ([v], rest2)
        else none

/-- Comma-separated `"key": value` pairs up to the closing brace, in
source order. -/
def parseFields : Nat → List Char → Option (List (String × Json) × List Char)
  | 0, _ => none
  | fuel + 1, cs =>
    match skipWs cs with
    | [] => none
    | c :: rest =>
      if c = '"' then
        match parseStringChars rest with
        | some (key, rest2) =>
          match skipWs rest2 with
          | [] => none
          | c2 :: rest3 =>
            if c2 = ':' then
              match parseValue fuel rest3 with
              | some (v, rest4) =>
                match skipWs rest4 with
                | [] => none
                | c3 :: rest5 =>
                  if c3 = ',' then
                    match parseFields fuel rest5 with
                    | some (kvs, rest6) => some ((String.mk key, v) :: kvs, rest6)
                    | none => none
                  else if c3 = rbraceChar then some ([(String.mk key, v)], rest5)
                  else none
              | none => none
            else none
        | none => none
      else none

end

/-- Model of `json.loads`: parse one value, demand only whitespace after
it. -/
def loads (s : String) : Option Json :=
  match parseValue (2 * s.length + 8) s.data with
  | some (v, rest) => if skipWs rest = [] then some v else none
  | none => none

/-- HTTP methods the handler implements. -/
inductive Method where
  | GET : Method
  | POST : Method
  | DELETE : Method
  | OPTIONS : Method
deriving DecidableEq, Repr

/-- An incoming request as the handler observes it: method, path, body. -/
structure Request where
  method : Method
  path : String
  body : String
deriving DecidableEq, Repr

/-- An outgoing response: status code, headers in send order, body. -/
structure Response where
  status : Nat
  headers : List (String × String)
  body : String
deriving DecidableEq, Repr

/-- Filesystem state the server touches: the color-mapping file, the
keymap file, whether the keymap destination directory exists, and the
static files under the serving root (path to content). `none` is an
absent file. -/
structure FS where
  keyColors : Option String
  keymap : Option String
  keymapDirExists : Bool
  staticFiles : List (String × String)
deriving DecidableEq, Repr

/-- Default port the probe starts from. -/
def PORT : Nat := 8000

/-- Path of the color-mapping file, rendered relative to the project root
(the installation-dependent absolute prefix of `Path(__file__)` is
elided). -/
def KEY_COLORS_FILE : String := "keyboard-visualizer/key-colors.json"

/-- Path of the keymap file, rendered relative to the project root. -/
def keymap_path : String := "config/boards/shields/detun/detun.keymap"

/-- Headers appended by the overridden `end_headers`, on every response. -/
def corsHeaders : List (String × String) :=
  [("Access-Control-Allow-Origin", "*"),
   ("Access-Control-Allow-Methods", "GET, POST, DELETE, OPTIONS"),
   ("Access-Control-Allow-Headers", "Content-Type")]

/-- Response assembled by `send_response` / `send_header` / `end_headers`:
the CORS headers follow whatever headers the handler set. -/
def mkResponse (status : Nat) (contentType : Option String) (body : String) : Response :=
  { status := status
    headers := (match contentType with
                | some c => [("Content-Type", c)]
                | none => []) ++ corsHeaders
    body := body }

/-- Model of the HTML error page `BaseHTTPRequestHandler.send_error`
emits; the handler only depends on it carrying the code and message. -/
def errorPage (code : Nat) (message : String) : String :=
  "<html>Error " ++ toString code ++ ": " ++ message ++ "</html>"

/-- Model of `send_error`: error status, HTML body, and, because the
overridden `end_headers` also runs here, the CORS headers. -/
def sendError (code : Nat) (message : String) : Response :=
  { status := code
    headers := [("Content-Type", "text/html;charset=utf-8")] ++ corsHeaders
    body := errorPage code message }

/-- First (only, for a Python dict) value stored under `k`. -/
def lookupField : List (String × Json) → String → Option Json
  | [], _ => none
  | (k1, v) :: rest, k => if k1 = k then some v else lookupField rest k

/-- Lookup in the static file table. -/
def lookupFile : List (String × String) → String → Option String
  | [], _ => none
  | (p, c) :: rest, path => if p = path then some c else lookupFile rest path

/-- Model of the `SimpleHTTPRequestHandler` fallback rooted at
`PROJECT_ROOT`: the file at the request path, or the stdlib 404. Content
type guessing is elided. -/
def serveStatic (fs : FS) (path : String) : Response :=
  match lookupFile fs.staticFiles path with
  | some content => mkResponse 200 none content
  | none => sendError 404 "File not found"

/-- Python `k in data` for a string `k`: key test on a dict, element test
on a list, substring test on a str, and a `TypeError` otherwise. -/
def pyContains (v : Json) (k : String) : Except Unit Bool :=
  match v with
  | Json.obj kvs => Except.ok (lookupField kvs k).isSome
  | Json.arr xs => Except.ok (xs.contains (Json.str k))
  | Json.str s => Except.ok (1 < (s.splitOn k).length)
  | _ => Except.error ()

/-- Python `data[k]` for a string `k`: dict lookup, a `TypeError` on any
other value. -/
def pySubscript (v : Json) (k : String) : Except Unit Json :=
  match v with
  | Json.obj kvs =>
    match lookupField kvs k with
    | some x => Except.ok x
    | none => Except.error ()
  | _ => Except.error ()

/-- Success envelope of `POST /api/key-colors`. -/
def saveColorsEnvelope : String :=
  dumps (Json.obj [("success", Json.bool true),
                   ("message", Json.str "Key colors saved successfully"),
                   ("path", Json.str KEY_COLORS_FILE)])

/-- Success envelope of `POST /api/save-keymap`. -/
def saveKeymapEnvelope : String :=
  dumps (Json.obj [("success", Json.bool true),
                   ("message", Json.str "Keymap saved successfully"),
                   ("path", Json.str keymap_path)])

/-- Success envelope of `DELETE /api/key-colors`. -/
def deleteEnvelope : String :=
  dumps (Json.obj [("success", Json.bool true),
                   ("message", Json.str "Key colors reset successfully")])

/-- Handler for `OPTIONS`: status 200, no body, headers from
`end_headers` alone. -/
def do_OPTIONS (fs : FS) (_req : Request) : Response × FS :=
  (mkResponse 200 none "", fs)

/-- Handler for `GET`. On `/api/key-colors`: 404 with `json.dumps(dict())`
when the file is absent; otherwise the file is parsed and re-serialized
compactly, a parse failure becoming the 500 branch of the `except` block
(the exception text is abbreviated). Every other path falls back to
static serving. -/
def do_GET (fs : FS) (req : Request) : Response × FS :=
  if req.path = "/api/key-colors" then
    match fs.keyColors with
    | none => (mkResponse 404 (some "application/json") (dumps (Json.obj [])), fs)
    | some content =>
      match loads content with
      | some colors => (mkResponse 200 (some "application/json") (dumps colors), fs)
      | none => (sendError 500 "Error loading key colors: invalid JSON", fs)
  else
    (serveStatic fs req.path, fs)

/-- Handler for `POST`. On `/api/key-colors` the parsed body is written
pretty-printed, whatever its shape. On `/api/save-keymap` the body must
be JSON with a `keymap_content` member; opening the keymap file for
writing truncates it before `f.write` runs, so a non-string value leaves
an empty file behind the 500 response. Other paths get a literal 404. -/
def do_POST (fs : FS) (req : Request) : Response × FS :=
  if req.path = "/api/key-colors" then
    match loads req.body with
    | none => (sendError 500 "Error saving key colors: invalid JSON", fs)
    | some colors =>
      (mkResponse 200 (some "application/json") saveColorsEnvelope,
       { fs with keyColors := some (dumpsIndent2 colors) })
  else if req.path = "/api/save-keymap" then
    match loads req.body with
    | none => (sendError 500 "Error saving keymap: invalid JSON", fs)
    | some data =>
      match pyContains data "keymap_content" with
      | Except.error _ => (sendError 500 "Error saving keymap: TypeError", fs)
      | Except.ok false => (sendError 400 "Missing keymap_content in request", fs)
      | Except.ok true =>
        match pySubscript data "keymap_content" with
        | Except.error _ =>
          (sendError 500 "Error saving keymap: TypeError",
           { fs with keymapDirExists := true, keymap := some "" })
        | Except.ok v =>
          match v with
          | Json.str s =>
            (mkResponse 200 (some "application/json") saveKeymapEnvelope,
             { fs with keymapDirExists := true, keymap := some s })
          | _ =>
            (sendError 500 "Error saving keymap: write argument must be str",
             { fs with keymapDirExists := true, keymap := some "" })
  else
    (sendError 404 "Endpoint not found", fs)

/-- Handler for `DELETE`. On `/api/key-colors` the file is removed when
present and the same success envelope is returned either way. Other paths
get a literal 404. -/
def do_DELETE (fs : FS) (req : Request) : Response × FS :=
  if req.path = "/api/key-colors" then
    (mkResponse 200 (some "application/json") deleteEnvelope, { fs with keyColors := none })
  else
    (sendError 404 "Endpoint not found", fs)

/-- Dispatch on the request method, as `BaseHTTPRequestHandler` does. -/
def handle (fs : FS) (req : Request) : Response × FS :=
  match req.method with
  | Method.GET => do_GET fs req
  | Method.POST => do_POST fs req
  | Method.DELETE => do_DELETE fs req
  | Method.OPTIONS => do_OPTIONS fs req

/-- Port probe: `occupied` tells whether binding the throwaway listener
raises `OSError`. The loop over `range(start_port, start_port +
max_attempts)` returns the first port that binds. -/
def find_free_port (occupied : Nat → Bool) : Nat → Nat → Option Nat
  | _, 0 => none
  | start_port, n + 1 =>
    if occupied start_port then find_free_port occupied (start_port + 1) n
    else some start_port

/-- URL the startup banner reports and the browser is pointed at. -/
def server_url (port : Nat) : String :=
  "http://localhost:" ++ toString port ++ "/keyboard-visualizer/"

/-- Observable outcome of `main` before the serve loop: either
`sys.exit(1)` or a server bound on a port with the reported URL. -/
inductive MainResult where
  | exit1 : MainResult
  | serve (port : Nat) (url : String) : MainResult
deriving DecidableEq, Repr

/-- Startup routine `main`: probe from `PORT` with the default budget of
10 attempts; exit with status 1 when nothing is free, otherwise bind the
found port and report its URL. -/
def main_outcome (occupied : Nat → Bool) : MainResult :=
  match find_free_port occupied PORT 10 with
  | none => MainResult.exit1
  | some p => MainResult.serve p (server_url p)

/-- An empty filesystem, used by concrete instantiations. -/
def emptyFS : FS :=
  { keyColors := none, keymap := none, keymapDirExists := false, staticFiles := [] }

theorem cors_mem_mkResponse (s : Nat) (ct : Option String) (b : String)
    (h : String × String) (hm : h ∈ corsHeaders) : h ∈ (mkResponse s ct b).headers := by
  cases ct <;> simp [mkResponse, List.mem_append] <;> tauto

theorem cors_mem_sendError (code : Nat) (msg : String)
    (h : String × String) (hm : h ∈ corsHeaders) : h ∈ (sendError code msg).headers := by
  simp [sendError, List.mem_append]
  tauto

theorem cors_mem_handle (fs : FS) (req : Request) (h : String × String)
    (hm : h ∈ corsHeaders) : h ∈ (handle fs req).1.headers := by
  rcases req with ⟨m, p, b⟩
  cases m <;>
    simp only [handle, do_GET, do_POST, do_DELETE, do_OPTIONS, serveStatic] <;>
    repeat' split
  all_goals
    first
      | exact cors_mem_mkResponse _ _ _ h hm
      | exact cors_mem_sendError _ _ h hm

theorem ffp_none_of_all_occupied (occupied : Nat → Bool) :
    ∀ n s, (∀ q, s ≤ q → q < s + n → occupied q = true) →
      find_free_port occupied s n = none
  | 0, _, _ => rfl
  | n + 1, s, h => by
    have hs : occupied s = true := h s le_rfl (by omega)
    simp only [find_free_port, hs, if_true]
    exact ffp_none_of_all_occupied occupied n (s + 1) (fun q h1 h2 => h q (by omega) (by omega))

theorem ffp_first_free (occupied : Nat → Bool) :
    ∀ n s p, s ≤ p → p < s + n → occupied p = false →
      (∀ q, s ≤ q → q < p → occupied q = true) →
      find_free_port occupied s n = some p
  | 0, _, _, h1, h2, _, _ => absurd h2 (by omega)
  | n + 1, s, p, h1, h2, hf, hocc => by
    by_cases hs : s = p
    · subst hs
      simp [find_free_port, hf]
    · have ho : occupied s = true := hocc s le_rfl (by omega)
      simp only [find_free_port, ho, if_true]
      exact ffp_first_free occupied n (s + 1) p (by omega) (by omega) hf
        (fun q h3 h4 => hocc q (by omega) h4)

/-- C6: a `GET /api/key-colors` issued while the color-mapping file does
not exist answers 404 with the empty JSON object as body, through the
ordinary response path (JSON content type, not the HTML error page), and
leaves the filesystem untouched. -/
theorem getKeyColors_absent (fs : FS) (body : String) (h : fs.keyColors = none) :
    handle fs { method := Method.GET, path := "/api/key-colors", body := body }
      = (mkResponse 404 (some "application/json") "\x7b\x7d", fs) := by
  simp [handle, do_GET, h]
  rfl

/-- Witness for `getKeyColors_absent` at the empty filesystem. -/
theorem getKeyColors_absent_witness :
    handle emptyFS { method := Method.GET, path := "/api/key-colors", body := "" }
      = (mkResponse 404 (some "application/json") "\x7b\x7d", emptyFS) :=
  getKeyColors_absent emptyFS "" rfl

/-- C7: `DELETE /api/key-colors` always answers the 200 success envelope,
and the resulting state has no color-mapping file: removal when the file
was present, a filesystem no-op when it was already absent. -/
theorem deleteKeyColors_spec (fs : FS) (body : String) :
    handle fs { method := Method.DELETE, path := "/api/key-colors", body := body }
      = (mkResponse 200 (some "application/json") deleteEnvelope,
         { fs with keyColors := none }) := by
  simp [handle, do_DELETE]

/-- C3: a `POST /api/save-keymap` whose body parses as a JSON object with
no `keymap_content` member answers 400 with the literal message and
changes nothing on the filesystem. -/
theorem saveKeymap_missing_field (fs : FS) (body : String) (kvs : List (String × Json))
    (hparse : loads body = some (Json.obj kvs))
    (hmissing : lookupField kvs "keymap_content" = none) :
    handle fs { method := Method.POST, path := "/api/save-keymap", body := body }
      = (sendError 400 "Missing keymap_content in request", fs) := by
  simp [handle, do_POST, hparse, pyContains, hmissing]

/-- Witness for `saveKeymap_missing_field` on the body with a single
unrelated member. -/
theorem saveKeymap_missing_field_witness :
    handle emptyFS { method := Method.POST, path := "/api/save-keymap",
                     body := "\x7b\"x\": 1\x7d" }
      = (sendError 400 "Missing keymap_content in request", emptyFS) :=
  saveKeymap_missing_field emptyFS "\x7b\"x\": 1\x7d" [("x", Json.num 1)]
    (by decide) (by decide)

/-- C8: a `POST /api/save-keymap` whose body parses as a JSON object whose
`keymap_content` member is the string `s` writes exactly `s` to the fixed
keymap path, whatever the file held before, creates the destination
directory, and answers 200 with the envelope carrying the path. -/
theorem saveKeymap_writes_verbatim (fs : FS) (body : String)
    (kvs : List (String × Json)) (s : String)
    (hparse : loads body = some (Json.obj kvs))
    (hget : lookupField kvs "keymap_content" = some (Json.str s)) :
    handle fs { method := Method.POST, path := "/api/save-keymap", body := body }
      = (mkResponse 200 (some "application/json") saveKeymapEnvelope,
         { fs with keymap := some s, keymapDirExists := true }) := by
  simp [handle, do_POST, hparse, pyContains, pySubscript, hget]

/-- Witness for `saveKeymap_writes_verbatim`, overwriting prior content. -/
theorem saveKeymap_writes_verbatim_witness :
    handle { emptyFS with keymap := some "old" }
        { method := Method.POST, path := "/api/save-keymap",
          body := "\x7b\"keymap_content\": \"NEW\"\x7d" }
      = (mkResponse 200 (some "application/json") saveKeymapEnvelope,
         { emptyFS with keymap := some "NEW", keymapDirExists := true }) :=
  saveKeymap_writes_verbatim { emptyFS with keymap := some "old" }
    "\x7b\"keymap_content\": \"NEW\"\x7d" [("keymap_content", Json.str "NEW")] "NEW"
    (by decide) (by decide)

/-- C9: a `POST /api/key-colors` whose body parses as any JSON value at
all, object or not, writes the pretty-printed serialization of that value
to the color-mapping file and answers the 200 success envelope; no shape
check is performed. -/
theorem saveKeyColors_any_json (fs : FS) (body : String) (v : Json)
    (hparse : loads body = some v) :
    handle fs { method := Method.POST, path := "/api/key-colors", body := body }
      = (mkResponse 200 (some "application/json") saveColorsEnvelope,
         { fs with keyColors := some (dumpsIndent2 v) }) := by
  simp [handle, do_POST, hparse]

/-- Witness for `saveKeyColors_any_json` on an array body, a value that a
shape check would have rejected. -/
theorem saveKeyColors_any_json_witness :
    handle emptyFS { method := Method.POST, path := "/api/key-colors",
                     body := "[1, true, null]" }
      = (mkResponse 200 (some "application/json") saveColorsEnvelope,
         { emptyFS with
             keyColors := some (dumpsIndent2 (Json.arr [Json.num 1, Json.bool true, Json.null])) }) :=
  saveKeyColors_any_json emptyFS "[1, true, null]"
    (Json.arr [Json.num 1, Json.bool true, Json.null]) (by decide)

/-- C5: every response the handler produces carries the three permissive
CORS headers, the error responses included, and an `OPTIONS` request on
any path is answered 200 with an empty body. -/
theorem handler_cors_and_options (fs : FS) (req : Request) :
    (("Access-Control-Allow-Origin", "*") ∈ (handle fs req).1.headers ∧
     ("Access-Control-Allow-Methods", "GET, POST, DELETE, OPTIONS") ∈ (handle fs req).1.headers ∧
     ("Access-Control-Allow-Headers", "Content-Type") ∈ (handle fs req).1.headers) ∧
    (req.method = Method.OPTIONS →
      (handle fs req).1.status = 200 ∧ (handle fs req).1.body = "") := by
  refine ⟨⟨?_, ?_, ?_⟩, ?_⟩
  · exact cors_mem_handle fs req _ (by simp [corsHeaders])
  · exact cors_mem_handle fs req _ (by simp [corsHeaders])
  · exact cors_mem_handle fs req _ (by simp [corsHeaders])
  · intro hm
    rcases req with ⟨m, p, b⟩
    cases m <;> simp_all [handle, do_OPTIONS, mkResponse]

/-- Witness for `handler_cors_and_options`: an `OPTIONS` request on an
arbitrary path. -/
theorem handler_cors_and_options_witness :
    (handle emptyFS { method := Method.OPTIONS, path := "/any", body := "" }).1.status = 200 ∧
    (handle emptyFS { method := Method.OPTIONS, path := "/any", body := "" }).1.body = "" :=
  (handler_cors_and_options emptyFS
    { method := Method.OPTIONS, path := "/any", body := "" }).2 rfl

/-- C4: the probe walks ports 8000 up through a budget of 10 and returns
the first that binds; when every port of the budget is occupied it
returns nothing and `main` exits with status 1; when the default port is
occupied but a later one of the budget is first free, `main` binds that
port and reports its URL. -/
theorem port_probe_spec (occupied : Nat → Bool) :
    (∀ p, PORT ≤ p → p < PORT + 10 → occupied p = false →
       (∀ q, PORT ≤ q → q < p → occupied q = true) →
       find_free_port occupied PORT 10 = some p) ∧
    ((∀ q, PORT ≤ q → q < PORT + 10 → occupied q = true) →
       find_free_port occupied PORT 10 = none ∧ main_outcome occupied = MainResult.exit1) ∧
    (∀ p, occupied PORT = true → PORT < p → p < PORT + 10 → occupied p = false →
       (∀ q, PORT ≤ q → q < p → occupied q = true) →
       main_outcome occupied = MainResult.serve p (server_url p)) := by
  refine ⟨?_, ?_, ?_⟩
  · intro p h1 h2 hf hocc
    exact ffp_first_free occupied 10 PORT p h1 h2 hf hocc
  · intro h
    have hn := ffp_none_of_all_occupied occupied 10 PORT h
    exact ⟨hn, by simp [main_outcome, hn]⟩
  · intro p h0 h1 h2 hf hocc
    have hs := ffp_first_free occupied 10 PORT p (by omega) h2 hf hocc
    simp [main_outcome, hs]

/-- Witness for `port_probe_spec`: with exactly the default port occupied
the server comes up on 8001 and reports that URL. -/
theorem port_probe_spec_witness :
    main_outcome (fun q => q == 8000) = MainResult.serve 8001 (server_url 8001) :=
  (port_probe_spec (fun q => q == 8000)).2.2 8001 (by decide) (by decide) (by decide)
    (by decide)
    (fun q h1 h2 => by
      have hP : PORT = 8000 := rfl
      have hq : q = 8000 := by omega
      subst hq
      rfl)

/-- C1 counterexample: the mapping posted as compact JSON is stored
pretty-printed, and a subsequent `GET` answers 200 with a body that is
not the bytes of the file (the handler re-serializes compactly what it
parsed), refuting the claim that `GET` returns the exact file content. -/
theorem getKeyColors_not_file_bytes :
    (handle { emptyFS with keyColors := none }
        { method := Method.POST, path := "/api/key-colors",
          body := "\x7b\"a\": \"b\"\x7d" }).2.keyColors
      = some "\x7b\n  \"a\": \"b\"\n\x7d" ∧
    (handle { emptyFS with keyColors := some "\x7b\n  \"a\": \"b\"\n\x7d" }
        { method := Method.GET, path := "/api/key-colors", body := "" }).1.status = 200 ∧
    (handle { emptyFS with keyColors := some "\x7b\n  \"a\": \"b\"\n\x7d" }
        { method := Method.GET, path := "/api/key-colors", body := "" }).1.body
      = "\x7b\"a\": \"b\"\x7d" ∧
    (handle { emptyFS with keyColors := some "\x7b\n  \"a\": \"b\"\n\x7d" }
        { method := Method.GET, path := "/api/key-colors", body := "" }).1.body
      ≠ "\x7b\n  \"a\": \"b\"\n\x7d" := by
  decide

/-- C1 amended: a save writes the pretty-printed serialization of the
posted value to the color-mapping file, and a subsequent `GET` answers
200 with the compact re-serialization of the value parsed back from that
file: JSON-value-equivalent to what was saved, but not byte-identical to
the file. -/
theorem saveThenLoad_value_roundtrip (fs : FS) (body : String) (v w : Json)
    (hparse : loads body = some v)
    (hre : loads (dumpsIndent2 v) = some w) :
    (handle fs { method := Method.POST, path := "/api/key-colors", body := body }).2.keyColors
      = some (dumpsIndent2 v) ∧
    (handle (handle fs { method := Method.POST, path := "/api/key-colors", body := body }).2
        { method := Method.GET, path := "/api/key-colors", body := "" }).1
      = mkResponse 200 (some "application/json") (dumps w) := by
  have h1 : handle fs { method := Method.POST, path := "/api/key-colors", body := body }
      = (mkResponse 200 (some "application/json") saveColorsEnvelope,
         { fs with keyColors := some (dumpsIndent2 v) }) := by
    simp [handle, do_POST, hparse]
  rw [h1]
  exact ⟨rfl, by simp [handle, do_GET, hre]⟩

/-- Witness for `saveThenLoad_value_roundtrip` on the mapping with one
key. -/
theorem saveThenLoad_value_roundtrip_witness :
    (handle emptyFS { method := Method.POST, path := "/api/key-colors",
                      body := "\x7b\"a\": \"b\"\x7d" }).2.keyColors
      = some (dumpsIndent2 (Json.obj [("a", Json.str "b")])) ∧
    (handle (handle emptyFS { method := Method.POST, path := "/api/key-colors",
                              body := "\x7b\"a\": \"b\"\x7d" }).2
        { method := Method.GET, path := "/api/key-colors", body := "" }).1
      = mkResponse 200 (some "application/json") (dumps (Json.obj [("a", Json.str "b")])) :=
  saveThenLoad_value_roundtrip emptyFS "\x7b\"a\": \"b\"\x7d"
    (Json.obj [("a", Json.str "b")]) (Json.obj [("a", Json.str "b")])
    (by decide) (by decide)

/-- C2 counterexample: a `POST` to a non-API path that names an existing
static file is answered with the literal 404 page, not with the file and
not with the static fallback, refuting the claim that every method falls
back to static file serving. -/
theorem post_no_static_fallback :
    lookupFile [("/index.html", "hello")] "/index.html" = some "hello" ∧
    (handle { emptyFS with staticFiles := [("/index.html", "hello")] }
        { method := Method.POST, path := "/index.html", body := "" }).1
      = sendError 404 "Endpoint not found" ∧
    (handle { emptyFS with staticFiles := [("/index.html", "hello")] }
        { method := Method.POST, path := "/index.html", body := "" }).1
      ≠ serveStatic { emptyFS with staticFiles := [("/index.html", "hello")] } "/index.html" := by
  decide

/-- C2 amended: only `GET` requests to paths other than the two API
endpoints fall back to static file serving; `POST` and `DELETE` to such
paths answer the literal 404 message without consulting the filesystem,
which is left unchanged in every case. -/
theorem non_api_dispatch (fs : FS) (p body : String)
    (h1 : p ≠ "/api/key-colors") (h2 : p ≠ "/api/save-keymap") :
    handle fs { method := Method.GET, path := p, body := body } = (serveStatic fs p, fs) ∧
    handle fs { method := Method.POST, path := p, body := body }
      = (sendError 404 "Endpoint not found", fs) ∧
    handle fs { method := Method.DELETE, path := p, body := body }
      = (sendError 404 "Endpoint not found", fs) := by
  refine ⟨?_, ?_, ?_⟩ <;> simp [handle, do_GET, do_POST, do_DELETE, h1, h2]

/-- Witness for `non_api_dispatch` at a path carrying a static file. -/
theorem non_api_dispatch_witness :
    handle { emptyFS with staticFiles := [("/index.html", "hello")] }
        { method := Method.GET, path := "/index.html", body := "" }
      = (serveStatic { emptyFS with staticFiles := [("/index.html", "hello")] } "/index.html",
         { emptyFS with staticFiles := [("/index.html", "hello")] }) ∧
    handle { emptyFS with staticFiles := [("/index.html", "hello")] }
        { method := Method.POST, path := "/index.html", body := "" }
      = (sendError 404 "Endpoint not found",
         { emptyFS with staticFiles := [("/index.html", "hello")] }) :=
  ⟨(non_api_dispatch { emptyFS with staticFiles := [("/index.html", "hello")] }
      "/index.html" "" (by decide) (by decide)).1,
   (non_api_dispatch { emptyFS with staticFiles := [("/index.html", "hello")] }
      "/index.html" "" (by decide) (by decide)).2.1⟩

/-- C10 counterexample: posting a `keymap_content` of a non-string value
to `/api/save-keymap` answers 500 as claimed, but the keymap file is not
left unwritten: opening it for writing truncated it, so its prior content
is replaced by the empty string. -/
theorem saveKeymap_nonstring_truncates :
    (handle { emptyFS with keymap := some "old" }
        { method := Method.POST, path := "/api/save-keymap",
          body := "\x7b\"keymap_content\": 42\x7d" }).1.status = 500 ∧
    (handle { emptyFS with keymap := some "old" }
        { method := Method.POST, path := "/api/save-keymap",
          body := "\x7b\"keymap_content\": 42\x7d" }).2.keymap = some "" ∧
    (handle { emptyFS with keymap := some "old" }
        { method := Method.POST, path := "/api/save-keymap",
          body := "\x7b\"keymap_content\": 42\x7d" }).2.keymap ≠ some "old" := by
  decide

/-- C10 amended: a `POST /api/save-keymap` whose body parses as a JSON
object whose `keymap_content` member is not a string answers 500, the
intended content is not written, the destination directory is created
before the failing write, and the keymap file is truncated to empty by
the open that precedes the failing write, losing its prior content. -/
theorem saveKeymap_nonstring_spec (fs : FS) (body : String)
    (kvs : List (String × Json)) (v : Json)
    (hparse : loads body = some (Json.obj kvs))
    (hget : lookupField kvs "keymap_content" = some v)
    (hns : ∀ t, v ≠ Json.str t) :
    handle fs { method := Method.POST, path := "/api/save-keymap", body := body }
      = (sendError 500 "Error saving keymap: write argument must be str",
         { fs with keymap := some "", keymapDirExists := true }) := by
  cases v with
  | str t => exact absurd rfl (hns t)
  | null => simp [handle, do_POST, hparse, pyContains, pySubscript, hget]
  | bool b => simp [handle, do_POST, hparse, pyContains, pySubscript, hget]
  | num n => simp [handle, do_POST, hparse, pyContains, pySubscript, hget]
  | arr xs => simp [handle, do_POST, hparse, pyContains, pySubscript, hget]
  | obj fields => simp [handle, do_POST, hparse, pyContains, pySubscript, hget]

/-- Witness for `saveKeymap_nonstring_spec` with a numeric value. -/
theorem saveKeymap_nonstring_spec_witness :
    handle { emptyFS with keymap := some "old" }
        { method := Method.POST, path := "/api/save-keymap",
          body := "\x7b\"keymap_content\": 42\x7d" }
      = (sendError 500 "Error saving keymap: write argument must be str",
         { emptyFS with keymap := some "", keymapDirExists := true }) :=
  saveKeymap_nonstring_spec { emptyFS with keymap := some "old" }
    "\x7b\"keymap_content\": 42\x7d" [("keymap_content", Json.num 42)] (Json.num 42)
    (by decide) (by decide) (fun t h => Json.noConfusion h)
